import Mathlib

/-!
# Verification of the struct-to-SQL mapping core of go-sqlbuilder

This file shallowly embeds `struct.go` of the go-sqlbuilder repository in
Lean 4 and proves properties of its operations.

The embedding has three layers:

* a model of Go runtime values and types as seen through the `reflect`
  package (`GoValue`, `GoType`), including the zero `reflect.Value`
  (`GoValue.invalid`), dereferencing, emptiness (`isEmptyValue` is a direct
  translation of the function of the same name in `struct.go`), and the
  panics that `reflect` raises on the zero value, modelled as
  `Except.error`;
* the field-metadata model (`structField`, `taggedFields`, `structFields`)
  and the statement builders, which live in files of the repository that
  are not part of the excerpt and are therefore modelled from the
  specification (each such definition carries a doc comment saying so);
* the operations of `Struct` (`SelectFromForTag`, `UpdateForTag`,
  `buildColsAndValuesForTag`, `InsertIntoForTag`, `AddrForTag`,
  `ColumnsForTag`, `ValuesForTag`, ...), translated line by line from
  `struct.go`.

Records are passed to the operations as `Option GoValue`, where `none` is
the untyped Go `nil` (for which `reflect.ValueOf` returns the zero
`Value`).
-/

/-! ## Go values as seen through reflect -/

mutual
/-- A Go runtime value as observed through `reflect.Value`.
`invalid` is the zero `reflect.Value`.  Numeric kinds are collapsed to
their widest variant, exactly as `isEmptyValue` in `struct.go` observes
them (`v.Int()`, `v.Uint()`, bit patterns of floats and complex numbers).
`rawPointerV` is the `UnsafePointer` kind.  Nested lists use the mutual
types `GoValueList` and `GoFieldList` so that recursion over values is
structural. -/
inductive GoValue where
  | invalid
  | boolV (b : Bool)
  | intV (i : Int)
  | uintV (n : Nat)
  | floatV (bits : Nat)
  | complexV (re im : Nat)
  | arrayV (elems : GoValueList)
  | chanV (isNil : Bool)
  | funcV (isNil : Bool)
  | mapV (isNil : Bool)
  | sliceV (isNil : Bool)
  | rawPointerV (isNil : Bool)
  | ptrNil
  | ptrV (elem : GoValue)
  | ifaceNil
  | ifaceV (elem : GoValue)
  | stringV (s : String)
  | structV (tyName : String) (fields : GoFieldList)

/-- A list of Go values (elements of an array value). -/
inductive GoValueList where
  | nil
  | cons (hd : GoValue) (tl : GoValueList)

/-- The fields of a struct value: names paired with values, in
declaration order. -/
inductive GoFieldList where
  | nil
  | cons (name : String) (hd : GoValue) (tl : GoFieldList)
end

/-- The names of the fields of a struct value, in order. -/
def GoFieldList.names : GoFieldList → List String
  | .nil => []
  | .cons n _ tl => n :: tl.names

/-- Looks a field up by name; `none` when the name is absent. -/
def GoFieldList.lookup : GoFieldList → String → Option GoValue
  | .nil, _ => none
  | .cons n v tl, name => if n = name then some v else tl.lookup name

/-- A Go type identity, as compared by `v.Type() == s.structType` in
`struct.go`.  A named struct type carries its name and the names of its
fields; all comparisons in `struct.go` are against a struct type, so the
non-struct kinds are collapsed to their kind. -/
inductive GoType where
  | structT (name : String) (fields : List String)
  | boolT
  | intT
  | uintT
  | floatT
  | complexT
  | arrayT
  | chanT
  | funcT
  | mapT
  | sliceT
  | rawPointerT
  | stringT
  | ptrT (elem : GoType)
deriving DecidableEq

/-- `reflect.ValueOf`: the untyped `nil` gives the zero `Value`; any other
argument gives its dynamic value. -/
def reflectValueOf : Option GoValue → GoValue
  | none => .invalid
  | some v => v

/-- `dereferencedValue` from `struct.go`: follow `Elem()` while the kind is
`Ptr` or `Interface`.  `Elem()` of a nil pointer or nil interface is the
zero `Value`, on which the loop stops. -/
def dereferencedValue : GoValue → GoValue
  | .ptrV v => dereferencedValue v
  | .ptrNil => .invalid
  | .ifaceV v => dereferencedValue v
  | .ifaceNil => .invalid
  | v => v

/-- `dereferencedType` from `struct.go`: follow `Elem()` of pointer types. -/
def dereferencedType : GoType → GoType
  | .ptrT t => dereferencedType t
  | t => t

/-- The type of a value, `none` when `v.Type()` would panic.  It is only
applied to values that went through `dereferencedValue`, which never
returns a pointer or interface value, so the (value-undetermined) types of
those kinds are not tracked. -/
def goType? : GoValue → Option GoType
  | .invalid => none
  | .boolV _ => some .boolT
  | .intV _ => some .intT
  | .uintV _ => some .uintT
  | .floatV _ => some .floatT
  | .complexV _ _ => some .complexT
  | .arrayV _ => some .arrayT
  | .chanV _ => some .chanT
  | .funcV _ => some .funcT
  | .mapV _ => some .mapT
  | .sliceV _ => some .sliceT
  | .rawPointerV _ => some .rawPointerT
  | .ptrNil => none
  | .ptrV _ => none
  | .ifaceNil => none
  | .ifaceV _ => none
  | .stringV _ => some .stringT
  | .structV n fs => some (.structT n fs.names)

/-- `v.Type()`: panics (modelled as `Except.error`) on the zero `Value`,
exactly as `reflect.Value.Type` does. -/
def goTypeE (v : GoValue) : Except String GoType :=
  match goType? v with
  | none => .error "reflect: call of reflect.Value.Type on zero Value"
  | some t => .ok t

mutual
/-- `isEmptyValue` from `struct.go` (a copy of `reflect.Value.IsZero`):
whether a value is the zero value of its type.  Floats and complex numbers
are compared by bit pattern, arrays and structs recursively, nilable kinds
by nilness; the zero `Value` (and any unlisted kind) yields `false`. -/
def isEmptyValue : GoValue → Bool
  | .boolV b => !b
  | .intV i => i == 0
  | .uintV n => n == 0
  | .floatV bits => bits == 0
  | .complexV re im => re == 0 && im == 0
  | .arrayV es => isEmptyValueList es
  | .chanV n => n
  | .funcV n => n
  | .mapV n => n
  | .sliceV n => n
  | .rawPointerV n => n
  | .ptrNil => true
  | .ptrV _ => false
  | .ifaceNil => true
  | .ifaceV _ => false
  | .stringV s => s.length == 0
  | .structV _ fs => isEmptyFieldList fs
  | .invalid => false

/-- All elements of an array value are empty. -/
def isEmptyValueList : GoValueList → Bool
  | .nil => true
  | .cons e tl => isEmptyValue e && isEmptyValueList tl

/-- All fields of a struct value are empty. -/
def isEmptyFieldList : GoFieldList → Bool
  | .nil => true
  | .cons _ v tl => isEmptyValue v && isEmptyFieldList tl
end

/-- `v.FieldByName(name)`: the named field of a struct value; the zero
`Value` when the name is absent (or when `v` is not a struct value, a case
unreachable from the call sites in `struct.go`, which all check
`v.Type() == s.structType` first). -/
def GoValue.FieldByName (v : GoValue) (name : String) : GoValue :=
  match v with
  | .structV _ fs =>
      match fs.lookup name with
      | some fv => fv
      | none => .invalid
  | _ => .invalid

/-- `v.IsValid()`: whether `v` is not the zero `Value`. -/
def GoValue.IsValid : GoValue → Bool
  | .invalid => false
  | _ => true

/-- `v.Interface()`: panics (modelled as `Except.error`) on the zero
`Value`, exactly as `reflect.Value.Interface` does. -/
def GoValue.Interface (v : GoValue) : Except String GoValue :=
  match v with
  | .invalid => .error "reflect: call of reflect.Value.Interface on zero Value"
  | _ => .ok v

/-- Whether the result of `dereferencedValue` applied to this value is
addressable.  `reflect.ValueOf` yields an unaddressable value; `Elem()` of
a pointer yields an addressable one; `Elem()` of an interface yields an
unaddressable one; so the dereferenced result is addressable exactly when
the innermost wrapper around it is a non-nil pointer. -/
def derefAddressable : GoValue → Bool
  | .ptrV w =>
      match w with
      | .ptrV _ => derefAddressable w
      | .ptrNil => false
      | .ifaceV _ => derefAddressable w
      | .ifaceNil => false
      | _ => true
  | .ifaceV w => derefAddressable w
  | _ => false

/-! ## Field metadata (modelled from the spec)

`struct.go` consumes a field-metadata model (`structField`, tagged views,
the fields parser) and per-dialect statement builders that live in other
files of the repository, outside the excerpt.  They are modelled here from
the specification. -/

/-- Modelled from the spec: a SQL dialect handle.  The only dialect
behaviour this core consumes is identifier quoting (`quote(identifier)`),
modelled as a pair of delimiter strings. -/
structure Flavor where
  quoteL : String
  quoteR : String
deriving DecidableEq

/-- Modelled from the spec: the default dialect bound by entry
construction. -/
def DefaultFlavor : Flavor := { quoteL := "`", quoteR := "`" }

/-- `FieldMapperFunc`: a pure function mapping a declared field identifier
to a default column name. -/
def FieldMapperFunc := String → String

/-- Modelled from the spec: the default field mapping uses the declared
field identifier as the column name. -/
def defaultFieldMapper : FieldMapperFunc := fun name => name

/-- Modelled from the spec: per-field metadata (the FieldDescriptor).
`Name` is the declared field name, `columnName` the resolved column name,
`Alias` the alias (defaulting to `columnName`), `quoteRequested` the
quoting flag, and `omitEmpty` the omit-empty option: `none` when the
option is absent, `some []` when unscoped (applies to every tag), and
`some tags` when scoped to the listed tag groups. -/
structure structField where
  Name : String
  columnName : String
  Alias : String
  quoteRequested : Bool
  omitEmpty : Option (List String)
deriving DecidableEq

/-- Modelled from the spec: whether the omit-empty option of this field
applies to one of `tags`.  An unscoped option applies to every tag; a
scoped one applies exactly to the listed tags.  Call sites in `struct.go`
invoke it as `sf.ShouldOmitEmpty("", tag)`, here `[sf.ShouldOmitEmpty]
["", tag]`. -/
def structField.ShouldOmitEmpty (sf : structField) (tags : List String) : Bool :=
  match sf.omitEmpty with
  | none => false
  | some [] => true
  | some ts => tags.any fun t => ts.contains t

/-- Modelled from the spec: the column name of the field, quoted by the
dialect when the field requests quoting. -/
def structField.Quote (sf : structField) (flavor : Flavor) : String :=
  if sf.quoteRequested then flavor.quoteL ++ sf.columnName ++ flavor.quoteR
  else sf.columnName

/-- Modelled from the spec: the name a SELECT lists for this field — the
(possibly quoted) column name, with an `AS` alias when the alias differs
from the column name. -/
def structField.NameForSelect (sf : structField) (flavor : Flavor) : String :=
  if sf.Alias = sf.columnName then sf.Quote flavor
  else sf.Quote flavor ++ " AS " ++ sf.Alias

/-- Modelled from the spec: the TaggedView for one tag-group name — the
ordered field subsets usable for read (SELECT/scan) and write
(INSERT/UPDATE). -/
structure taggedFields where
  ForRead : List structField
  ForWrite : List structField
deriving DecidableEq

/-- Modelled from the spec: resolve a view restricted to exactly the
requested column names, preserving the caller-specified order; any
requested name with no matching field makes the whole call absent. -/
def taggedFields.Cols (tf : taggedFields) (cols : List String) : Option (List structField) :=
  cols.mapM fun c => tf.ForRead.find? fun sf => sf.Alias = c

/-- Modelled from the spec: the parsed field metadata of one declared
type.  `Tag` resolves the TaggedView for a tag-group name, `none` when the
view is absent.  The fields parser of `struct.go` is a memoized thunk
producing this value; the model carries the (immutable, build-once)
result directly. -/
structure structFields where
  Tag : String → Option taggedFields

/-- Modelled from the spec: the empty parse result of a non-struct-shaped
declared type — zero fields, every view absent, so callers degrade to
no-ops. -/
def emptyStructFields : structFields :=
  { Tag := fun _ => none }

/-- Modelled from the spec: the parse result of an annotation-free
declared struct type.  Every exported field belongs to the implicit view
for any requested tag name; column names and aliases are produced by the
field mapper; no options are set. -/
def makeStructFields (fieldNames : List String) (mapper : FieldMapperFunc) : structFields :=
  let fields := fieldNames.map fun name =>
    { Name := name
      columnName := mapper name
      Alias := mapper name
      quoteRequested := false
      omitEmpty := none : structField }
  { Tag := fun _ => some { ForRead := fields, ForWrite := fields } }

/-- `makeDefaultFieldsParser`: the parse result with the default field
mapper.  Modelled from the spec for annotation-free declared types, whose
field names the struct type carries. -/
def makeDefaultFieldsParser (t : GoType) : structFields :=
  match t with
  | .structT _ fields => makeStructFields fields defaultFieldMapper
  | _ => emptyStructFields

/-- `makeCustomFieldsParser`: the parse result with a custom field mapper.
Modelled from the spec for annotation-free declared types. -/
def makeCustomFieldsParser (t : GoType) (mapper : FieldMapperFunc) : structFields :=
  match t with
  | .structT _ fields => makeStructFields fields mapper
  | _ => emptyStructFields

/-! ## Statement builders (external collaborators, modelled from the spec) -/

/-- Modelled from the spec: a SELECT builder accumulating the table and
the selected column expressions. -/
structure SelectBuilder where
  table : String
  selects : List String
deriving DecidableEq

def Flavor.NewSelectBuilder (_ : Flavor) : SelectBuilder :=
  { table := "", selects := [] }

def SelectBuilder.From (sb : SelectBuilder) (table : String) : SelectBuilder :=
  { sb with table := table }

def SelectBuilder.Select (sb : SelectBuilder) (cols : List String) : SelectBuilder :=
  { sb with selects := cols }

/-- Modelled from the spec: an UPDATE builder.  `Assign` accumulates the
(column, value) assignment and returns its SQL fragment; `Set` records the
fragment list. -/
structure UpdateBuilder where
  table : String
  assignments : List (String × Option GoValue)
  setList : List String

def Flavor.NewUpdateBuilder (_ : Flavor) : UpdateBuilder :=
  { table := "", assignments := [], setList := [] }

def UpdateBuilder.Update (ub : UpdateBuilder) (table : String) : UpdateBuilder :=
  { ub with table := table }

def UpdateBuilder.Assign (ub : UpdateBuilder) (col : String) (data : Option GoValue) :
    UpdateBuilder × String :=
  ({ ub with assignments := ub.assignments ++ [(col, data)] }, col ++ " = ?")

def UpdateBuilder.Set (ub : UpdateBuilder) (fragments : List String) : UpdateBuilder :=
  { ub with setList := fragments }

/-- Modelled from the spec: an INSERT builder accumulating a verb, a
table, a column list and value rows.  A value-row cell is `none` for the
literal Go `nil` and `some v` for a value `v`. -/
structure InsertBuilder where
  verb : String
  table : String
  cols : List String
  values : List (List (Option GoValue))

def Flavor.NewInsertBuilder (_ : Flavor) : InsertBuilder :=
  { verb := "", table := "", cols := [], values := [] }

def InsertBuilder.InsertInto (ib : InsertBuilder) (table : String) : InsertBuilder :=
  { ib with verb := "INSERT INTO", table := table }

def InsertBuilder.InsertIgnoreInto (ib : InsertBuilder) (table : String) : InsertBuilder :=
  { ib with verb := "INSERT IGNORE INTO", table := table }

def InsertBuilder.ReplaceInto (ib : InsertBuilder) (table : String) : InsertBuilder :=
  { ib with verb := "REPLACE INTO", table := table }

def InsertBuilder.Cols (ib : InsertBuilder) (cols : List String) : InsertBuilder :=
  { ib with cols := ib.cols ++ cols }

def InsertBuilder.Values (ib : InsertBuilder) (row : List (Option GoValue)) : InsertBuilder :=
  { ib with values := ib.values ++ [row] }

/-- Modelled from the spec: a DELETE builder (trivial scaffold). -/
structure DeleteBuilder where
  table : String
deriving DecidableEq

def Flavor.NewDeleteBuilder (_ : Flavor) : DeleteBuilder :=
  { table := "" }

def DeleteBuilder.DeleteFrom (db : DeleteBuilder) (table : String) : DeleteBuilder :=
  { db with table := table }

/-- A scan target returned by the `Addr` operations: a mutable reference
to the named field's storage inside the supplied record. -/
inductive ScanAddr where
  | fieldAddr (name : String)
deriving DecidableEq

/-! ## The Struct mapper (translated from struct.go) -/

/-- `Struct` from `struct.go`: the mapper facade bound to one declared
type.  `structType` is `none` for the dummy mapper.  The fields parser is
a memoized thunk in Go; since its result is immutable and built once, the
model carries the result directly. -/
structure Struct where
  Flavor : Flavor
  structType : Option GoType
  structFieldsParser : structFields
  structTag : String

/-- `emptyStruct` from `struct.go`: the zero-valued dummy `Struct`
returned by `NewStruct` for non-struct input.  Its parse result is the
empty one (modelled from the spec: non-struct-shaped declared types
resolve to an empty descriptor, so callers degrade to no-ops). -/
def emptyStruct : Struct :=
  { Flavor := { quoteL := "", quoteR := "" }
    structType := none
    structFieldsParser := emptyStructFields
    structTag := "" }

/-- `NewStruct` from `struct.go`, taking the declared type of the sample
value (`reflect.TypeOf` is the only use Go makes of the value): dereference
the type; if it is not a struct type, return the dummy `Struct`; otherwise
bind the type and its default fields parser. -/
def NewStruct (t : GoType) : Struct :=
  match dereferencedType t with
  | .structT name fields =>
      { Flavor := DefaultFlavor
        structType := some (.structT name fields)
        structFieldsParser := makeDefaultFieldsParser (.structT name fields)
        structTag := "" }
  | _ => emptyStruct

/-- Alias for the dialect type, used in binder positions inside the
`Struct` namespace, where the bare name resolves to the field accessor. -/
abbrev SQLFlavor := Flavor

/-- `For` from `struct.go`: a shadow copy of `s` with the flavor set. -/
def Struct.For (s : Struct) (flavor : SQLFlavor) : Struct :=
  { s with Flavor := flavor }

/-- `WithFieldMapper` from `struct.go`: the dummy for the dummy, otherwise
a shadow copy of `s` with a custom fields parser. -/
def Struct.WithFieldMapper (s : Struct) (mapper : FieldMapperFunc) : Struct :=
  match s.structType with
  | none => emptyStruct
  | some t => { s with structFieldsParser := makeCustomFieldsParser t mapper }

/-- `WithTag` from `struct.go`: a shadow copy of `s` with the default tag
set. -/
def Struct.WithTag (s : Struct) (tag : String) : Struct :=
  { s with structTag := tag }

/-- `SelectFromForTag` from `struct.go`: a SELECT scaffold; `*` when the
view is absent, otherwise `table.<name>` per read-view field. -/
def Struct.SelectFromForTag (s : Struct) (table tag : String) : SelectBuilder :=
  let sfs := s.structFieldsParser
  let sb := (s.Flavor.NewSelectBuilder).From table
  match sfs.Tag tag with
  | none => sb.Select ["*"]
  | some tagged =>
      sb.Select (tagged.ForRead.map fun sf => table ++ "." ++ sf.NameForSelect s.Flavor)

/-- `SelectFrom` from `struct.go`. -/
def Struct.SelectFrom (s : Struct) (table : String) : SelectBuilder :=
  s.SelectFromForTag table s.structTag

/-- The body of the write-view loop of `UpdateForTag`: skip the field when
its value is empty and its omit-empty option applies; otherwise
dereference non-empty values, take `Interface()` (which panics — an
`Except.error` — on the zero `Value`) and accumulate the assignment. -/
def updateStep (s : Struct) (tag : String) (v : GoValue)
    (acc : UpdateBuilder × List String) (sf : structField) :
    Except String (UpdateBuilder × List String) := do
  let val := v.FieldByName sf.Name
  if isEmptyValue val && sf.ShouldOmitEmpty ["", tag] then
    return acc
  else
    let val := if isEmptyValue val then val else dereferencedValue val
    let data ← val.Interface
    let (ub, fragment) := acc.1.Assign (sf.Quote s.Flavor) (some data)
    return (ub, acc.2 ++ [fragment])

/-- `UpdateForTag` from `struct.go`: a dummy UPDATE scaffold when the view
is absent or the record's dereferenced type differs from the bound type
(`v.Type()` panics — an `Except.error` — on the zero `Value`); otherwise
one assignment per non-skipped write-view field, in view order. -/
def Struct.UpdateForTag (s : Struct) (table tag : String) (value : Option GoValue) :
    Except String UpdateBuilder := do
  let sfs := s.structFieldsParser
  let ub := (s.Flavor.NewUpdateBuilder).Update table
  match sfs.Tag tag with
  | none => return ub
  | some tagged => do
    let v := dereferencedValue (reflectValueOf value)
    let vt ← goTypeE v
    if some vt ≠ s.structType then
      return ub
    else do
      let (ub, assignments) ← tagged.ForWrite.foldlM (updateStep s tag v) (ub, [])
      return ub.Set assignments

/-- `Update` from `struct.go`. -/
def Struct.Update (s : Struct) (table : String) (value : Option GoValue) :
    Except String UpdateBuilder :=
  s.UpdateForTag table s.structTag value

/-- The record filter at the head of `buildColsAndValuesForTag`: keep the
dereferenced value of each record whose type equals the bound type
(`v.Type()` panics — an `Except.error` — on the zero `Value`, i.e. on a
`nil` or nil-pointer record). -/
def filterSurvivors (t : Option GoType) : List (Option GoValue) → Except String (List GoValue)
  | [] => .ok []
  | item :: rest => do
      let v := dereferencedValue (reflectValueOf item)
      let vt ← goTypeE v
      let tl ← filterSurvivors t rest
      if some vt = t then .ok (v :: tl) else .ok tl

/-- One cell of a value row in `buildColsAndValuesForTag`: the
dereferenced field value when valid, otherwise the literal `nil`. -/
def insertCell (sf : structField) (v : GoValue) : Option GoValue :=
  let val := dereferencedValue (v.FieldByName sf.Name)
  if val.IsValid then some val else none

/-- The `nilCnt` of one write-view field in `buildColsAndValuesForTag`:
how many surviving records have an empty value for the field, when the
field's omit-empty option applies to the tag. -/
def nilCount (sf : structField) (tag : String) (vs : List GoValue) : Nat :=
  vs.countP fun v => isEmptyValue (v.FieldByName sf.Name) && sf.ShouldOmitEmpty ["", tag]

/-- `buildColsAndValuesForTag` from `struct.go`: return `ib` untouched
when the view is absent or no record survives the type filter; otherwise
build per-field quoted columns, per-record value rows and per-field nil
counts, drop every column whose nil count equals the number of rows, and
set the remaining columns and rows on `ib`. -/
def Struct.buildColsAndValuesForTag (s : Struct) (ib : InsertBuilder) (tag : String)
    (value : List (Option GoValue)) : Except String InsertBuilder := do
  let sfs := s.structFieldsParser
  match sfs.Tag tag with
  | none => return ib
  | some tagged => do
    let vs ← filterSurvivors s.structType value
    if vs.length = 0 then
      return ib
    else
      let cols := tagged.ForWrite.map fun sf => sf.Quote s.Flavor
      let values := vs.map fun v => tagged.ForWrite.map fun sf => insertCell sf v
      let nilCols := tagged.ForWrite.map fun sf => nilCount sf tag vs
      let filteredCols :=
        ((cols.zip nilCols).filter fun p => p.2 ≠ values.length).map Prod.fst
      let filteredValues := values.map fun row =>
        ((row.zip nilCols).filter fun p => p.2 ≠ values.length).map Prod.fst
      let ib := ib.Cols filteredCols
      return filteredValues.foldl (fun b row => b.Values row) ib

/-- `InsertIntoForTag` from `struct.go`. -/
def Struct.InsertIntoForTag (s : Struct) (table tag : String) (value : List (Option GoValue)) :
    Except String InsertBuilder :=
  s.buildColsAndValuesForTag ((s.Flavor.NewInsertBuilder).InsertInto table) tag value

/-- `InsertIgnoreIntoForTag` from `struct.go`. -/
def Struct.InsertIgnoreIntoForTag (s : Struct) (table tag : String)
    (value : List (Option GoValue)) : Except String InsertBuilder :=
  s.buildColsAndValuesForTag ((s.Flavor.NewInsertBuilder).InsertIgnoreInto table) tag value

/-- `ReplaceIntoForTag` from `struct.go`. -/
def Struct.ReplaceIntoForTag (s : Struct) (table tag : String) (value : List (Option GoValue)) :
    Except String InsertBuilder :=
  s.buildColsAndValuesForTag ((s.Flavor.NewInsertBuilder).ReplaceInto table) tag value

/-- `InsertInto` from `struct.go`. -/
def Struct.InsertInto (s : Struct) (table : String) (value : List (Option GoValue)) :
    Except String InsertBuilder :=
  s.InsertIntoForTag table s.structTag value

/-- `InsertIgnoreInto` from `struct.go`. -/
def Struct.InsertIgnoreInto (s : Struct) (table : String) (value : List (Option GoValue)) :
    Except String InsertBuilder :=
  s.InsertIgnoreIntoForTag table s.structTag value

/-- `ReplaceInto` from `struct.go`. -/
def Struct.ReplaceInto (s : Struct) (table : String) (value : List (Option GoValue)) :
    Except String InsertBuilder :=
  s.ReplaceIntoForTag table s.structTag value

/-- `DeleteFrom` from `struct.go`. -/
def Struct.DeleteFrom (s : Struct) (table : String) : DeleteBuilder :=
  (s.Flavor.NewDeleteBuilder).DeleteFrom table

/-- `addrWithFields` from `struct.go`: empty on a type mismatch; otherwise
one scan target per field, where `Addr()` panics — an `Except.error` — on
an unaddressable or zero `Value` (a record passed by value rather than by
pointer, or an absent field name). -/
def Struct.addrWithFields (s : Struct) (fields : List structField) (st : Option GoValue) :
    Except String (List ScanAddr) := do
  let v0 := reflectValueOf st
  let v := dereferencedValue v0
  let vt ← goTypeE v
  if some vt ≠ s.structType then
    return []
  else
    fields.mapM fun sf => do
      let fv := v.FieldByName sf.Name
      if fv.IsValid && derefAddressable v0 then
        return ScanAddr.fieldAddr sf.Name
      else
        Except.error "reflect: reflect.Value.Addr of unaddressable value"

/-- `AddrForTag` from `struct.go`: `nil` when the view is absent,
otherwise scan targets for the read view. -/
def Struct.AddrForTag (s : Struct) (tag : String) (st : Option GoValue) :
    Except String (List ScanAddr) :=
  match s.structFieldsParser.Tag tag with
  | none => .ok []
  | some tagged => s.addrWithFields tagged.ForRead st

/-- `Addr` from `struct.go`. -/
def Struct.Addr (s : Struct) (st : Option GoValue) : Except String (List ScanAddr) :=
  s.AddrForTag s.structTag st

/-- `AddrWithCols` from `struct.go`: `nil` when the default-tag view is
absent or a requested column name matches no field, otherwise scan targets
for exactly the requested columns. -/
def Struct.AddrWithCols (s : Struct) (cols : List String) (st : Option GoValue) :
    Except String (List ScanAddr) :=
  match s.structFieldsParser.Tag s.structTag with
  | none => .ok []
  | some tagged =>
      match tagged.Cols cols with
      | none => .ok []
      | some fields => s.addrWithFields fields st

/-- `ColumnsForTag` from `struct.go`: the write-view alias names, in view
order; `nil` when the view is absent. -/
def Struct.ColumnsForTag (s : Struct) (tag : String) : List String :=
  match s.structFieldsParser.Tag tag with
  | none => []
  | some tagged => tagged.ForWrite.map fun sf => sf.Alias

/-- `Columns` from `struct.go`. -/
def Struct.Columns (s : Struct) : List String :=
  s.ColumnsForTag s.structTag

/-- `ValuesForTag` from `struct.go`: `nil` when the view is absent or the
record's dereferenced type differs from the bound type (`v.Type()` panics
— an `Except.error` — on the zero `Value`); otherwise a shallow copy of
each write-view field's value (`Interface()` panics on an absent field
name). -/
def Struct.ValuesForTag (s : Struct) (tag : String) (value : Option GoValue) :
    Except String (List (Option GoValue)) := do
  match s.structFieldsParser.Tag tag with
  | none => return []
  | some tagged => do
    let v := dereferencedValue (reflectValueOf value)
    let vt ← goTypeE v
    if some vt ≠ s.structType then
      return []
    else
      tagged.ForWrite.mapM fun sf => do
        let data ← (v.FieldByName sf.Name).Interface
        return some data

/-- `Values` from `struct.go`. -/
def Struct.Values (s : Struct) (st : Option GoValue) :
    Except String (List (Option GoValue)) :=
  s.ValuesForTag s.structTag st

/-! ## Helper lemmas -/

/-- Folding `Values` over rows appends the rows and changes nothing else. -/
theorem foldl_Values (ib : InsertBuilder) (rows : List (List (Option GoValue))) :
    rows.foldl (fun b row => b.Values row) ib = { ib with values := ib.values ++ rows } := by
  induction rows generalizing ib with
  | nil => simp
  | cons r rows ih =>
      rw [List.foldl_cons, ih]
      simp [InsertBuilder.Values, List.append_assoc]

/-- `Interface()` succeeds on a valid value. -/
theorem Interface_of_isValid (v : GoValue) (h : v.IsValid = true) : v.Interface = .ok v := by
  cases v <;> simp_all [GoValue.IsValid, GoValue.Interface]

/-- The column-keeping test of `buildColsAndValuesForTag`: with at least
one surviving record, the nil count differs from the row count exactly
when the field's omit-empty option does not apply or some surviving
record's value for the field is non-empty. -/
theorem nilCount_keep (sf : structField) (tag : String) (vs : List GoValue) (hne : vs ≠ []) :
    (decide (nilCount sf tag vs ≠ vs.length)) =
      !(sf.ShouldOmitEmpty ["", tag] && vs.all fun v => isEmptyValue (v.FieldByName sf.Name)) := by
  unfold nilCount
  cases homit : sf.ShouldOmitEmpty ["", tag] with
  | false =>
      simp only [homit, Bool.and_false, Bool.false_and, Bool.not_false, List.countP_false,
        decide_eq_true_eq, Bool.not_eq_true]
      simp [Ne, eq_comm, List.length_eq_zero, hne]
  | true =>
      simp only [homit, Bool.and_true, Bool.true_and, Bool.not_eq_true']
      by_cases hall : (vs.all fun v => isEmptyValue (v.FieldByName sf.Name)) = true
      · have : vs.countP (fun v => isEmptyValue (v.FieldByName sf.Name)) = vs.length :=
          List.countP_eq_length.mpr (by simpa [List.all_eq_true] using hall)
        simp [hall, this]
      · have : vs.countP (fun v => isEmptyValue (v.FieldByName sf.Name)) ≠ vs.length := by
          intro hcnt
          exact hall (by simpa [List.all_eq_true] using List.countP_eq_length.mp hcnt)
        simp [hall, this]

/-- Monadic bind on `Except` applied to a success. -/
theorem exceptBind_ok {ε α β : Type} (a : α) (f : α → Except ε β) :
    (Except.ok a : Except ε α) >>= f = f a := rfl

/-- Monadic bind on `Except` applied to a failure. -/
theorem exceptBind_error {ε α β : Type} (e : ε) (f : α → Except ε β) :
    (Except.error e : Except ε α) >>= f = Except.error e := rfl

/-- `pure` on `Except` is `Except.ok`. -/
theorem exceptPure (a : α) : (pure a : Except ε α) = Except.ok a := rfl

/-- The full characterization of a successful `buildColsAndValuesForTag`
with at least one surviving record: a write-view column survives the
cross-row filter exactly when its omit-empty option does not apply to the
tag or some surviving record has a non-empty value for it; the value rows
are, per surviving record in order, the cells of the surviving columns. -/
theorem buildColsAndValues_ok (s : Struct) (ib : InsertBuilder) (tag : String)
    (value : List (Option GoValue)) (tagged : taggedFields) (vs : List GoValue)
    (ht : s.structFieldsParser.Tag tag = some tagged)
    (hvs : filterSurvivors s.structType value = .ok vs)
    (hne : vs ≠ []) :
    s.buildColsAndValuesForTag ib tag value = .ok
      { ib with
        cols := ib.cols ++
          ((tagged.ForWrite.filter fun sf =>
            !(sf.ShouldOmitEmpty ["", tag] &&
              vs.all fun v => isEmptyValue (v.FieldByName sf.Name))).map
            fun sf => sf.Quote s.Flavor)
        values := ib.values ++ vs.map fun v =>
          ((tagged.ForWrite.filter fun sf =>
            !(sf.ShouldOmitEmpty ["", tag] &&
              vs.all fun w => isEmptyValue (w.FieldByName sf.Name))).map
            fun sf => insertCell sf v) } := by
  have hlen : ¬ vs.length = 0 := by simpa [List.length_eq_zero] using hne
  have hcond : ∀ sf : structField,
      (decide (nilCount sf tag vs ≠ (vs.map fun v => tagged.ForWrite.map fun sf => insertCell sf v).length)) =
        !(sf.ShouldOmitEmpty ["", tag] &&
          vs.all fun v => isEmptyValue (v.FieldByName sf.Name)) := by
    intro sf
    rw [List.length_map]
    exact nilCount_keep sf tag vs hne
  simp only [Struct.buildColsAndValuesForTag, ht, hvs, exceptBind_ok, hlen, if_false,
    foldl_Values]
  simp only [List.zip_map', List.map_map, List.filter_map, Function.comp_def,
    InsertBuilder.Cols, exceptPure]
  simp only [List.zip_map', List.map_map, List.filter_map, Function.comp_def, hcond]

/-- `Except.map` applied to a success. -/
theorem exceptMap_ok {ε α β : Type} (a : α) (f : α → β) :
    (Except.ok a : Except ε α).map f = Except.ok (f a) := rfl

/-- `Except.map` applied to a failure. -/
theorem exceptMap_error {ε α β : Type} (e : ε) (f : α → β) :
    (Except.error e : Except ε α).map f = Except.error e := rfl

/-- `buildColsAndValuesForTag` returns the builder untouched when the view
is absent. -/
theorem buildColsAndValues_tag_none (s : Struct) (ib : InsertBuilder) (tag : String)
    (value : List (Option GoValue)) (ht : s.structFieldsParser.Tag tag = none) :
    s.buildColsAndValuesForTag ib tag value = .ok ib := by
  simp only [Struct.buildColsAndValuesForTag, ht]
  rfl

/-- `buildColsAndValuesForTag` returns the builder untouched when no
record survives the type filter. -/
theorem buildColsAndValues_no_survivor (s : Struct) (ib : InsertBuilder) (tag : String)
    (value : List (Option GoValue)) (hvs : filterSurvivors s.structType value = .ok []) :
    s.buildColsAndValuesForTag ib tag value = .ok ib := by
  cases ht : s.structFieldsParser.Tag tag with
  | none =>
      simp only [Struct.buildColsAndValuesForTag, ht]
      rfl
  | some tagged =>
      simp only [Struct.buildColsAndValuesForTag, ht, hvs, exceptBind_ok, List.length_nil,
        if_pos]
      rfl

/-- `buildColsAndValuesForTag` propagates a failure of the record filter. -/
theorem buildColsAndValues_filter_error (s : Struct) (ib : InsertBuilder) (tag : String)
    (value : List (Option GoValue)) (tagged : taggedFields) (e : String)
    (ht : s.structFieldsParser.Tag tag = some tagged)
    (hvs : filterSurvivors s.structType value = .error e) :
    s.buildColsAndValuesForTag ib tag value = .error e := by
  simp [Struct.buildColsAndValuesForTag, ht, hvs, exceptBind_error]

/-- `buildColsAndValuesForTag` only reads the columns and value rows of
the builder it is given: starting from a builder with a different verb
yields the same result with that verb. -/
theorem buildColsAndValues_verb (s : Struct) (ib : InsertBuilder) (w tag : String)
    (value : List (Option GoValue)) :
    s.buildColsAndValuesForTag { ib with verb := w } tag value =
      (s.buildColsAndValuesForTag ib tag value).map fun r => { r with verb := w } := by
  cases ht : s.structFieldsParser.Tag tag with
  | none =>
      rw [buildColsAndValues_tag_none s _ tag value ht, buildColsAndValues_tag_none s ib tag value ht]
      rfl
  | some tagged =>
      cases hvs : filterSurvivors s.structType value with
      | error e =>
          rw [buildColsAndValues_filter_error s _ tag value tagged e ht hvs,
            buildColsAndValues_filter_error s ib tag value tagged e ht hvs]
          rfl
      | ok vs =>
          by_cases h0 : vs = []
          · subst h0
            rw [buildColsAndValues_no_survivor s _ tag value hvs,
              buildColsAndValues_no_survivor s ib tag value hvs]
            rfl
          · rw [buildColsAndValues_ok s { ib with verb := w } tag value tagged vs ht hvs h0,
              buildColsAndValues_ok s ib tag value tagged vs ht hvs h0]
            rfl

/-- A record whose dereferenced type differs from the filter's type is
dropped by the record filter, wherever it occurs. -/
theorem filterSurvivors_drop (t0 : GoType) (st : Option GoValue) (t' : GoType)
    (hty : goTypeE (dereferencedValue (reflectValueOf st)) = .ok t') (hne : t' ≠ t0) :
    ∀ l1 l2 : List (Option GoValue),
      filterSurvivors (some t0) (l1 ++ st :: l2) = filterSurvivors (some t0) (l1 ++ l2) := by
  intro l1
  induction l1 with
  | nil =>
      intro l2
      simp only [List.nil_append, filterSurvivors, hty, exceptBind_ok]
      cases hrest : filterSurvivors (some t0) l2 with
      | error e => rfl
      | ok tl => simp [exceptBind_ok, hne]
  | cons a l1 ih =>
      intro l2
      simp only [List.cons_append, filterSurvivors, List.append_eq]
      simp only [ih]

/-- The write-view fold of `UpdateForTag`, characterized: with every field
name present in the record (and dereferenceable when non-empty), the fold
succeeds; it skips exactly the fields whose value is empty and whose
omit-empty option applies, and assigns each remaining field its value,
dereferenced when non-empty, in view order. -/
theorem updateFold_ok (s : Struct) (tag : String) (v : GoValue) (fs : List structField) :
    ∀ (ub : UpdateBuilder) (asgs : List String),
      (∀ sf ∈ fs, (v.FieldByName sf.Name).IsValid = true ∧
        (isEmptyValue (v.FieldByName sf.Name) = false →
          (dereferencedValue (v.FieldByName sf.Name)).IsValid = true)) →
      fs.foldlM (updateStep s tag v) (ub, asgs) = .ok
        ({ ub with assignments := ub.assignments ++
            ((fs.filter fun sf =>
                !(isEmptyValue (v.FieldByName sf.Name) && sf.ShouldOmitEmpty ["", tag])).map
              fun sf => (sf.Quote s.Flavor,
                some (if isEmptyValue (v.FieldByName sf.Name) then v.FieldByName sf.Name
                      else dereferencedValue (v.FieldByName sf.Name)))) },
          asgs ++ ((fs.filter fun sf =>
              !(isEmptyValue (v.FieldByName sf.Name) && sf.ShouldOmitEmpty ["", tag])).map
            fun sf => sf.Quote s.Flavor ++ " = ?")) := by
  induction fs with
  | nil =>
      intro ub asgs _
      simp only [List.foldlM_nil, List.filter_nil, List.map_nil, List.append_nil]
      rfl
  | cons sf fs ih =>
      intro ub asgs hvalid
      have hhead := hvalid sf (List.mem_cons_self sf fs)
      have htail : ∀ sf' ∈ fs, (v.FieldByName sf'.Name).IsValid = true ∧
          (isEmptyValue (v.FieldByName sf'.Name) = false →
            (dereferencedValue (v.FieldByName sf'.Name)).IsValid = true) :=
        fun sf' h => hvalid sf' (List.mem_cons_of_mem sf h)
      rw [List.foldlM_cons]
      by_cases hskip : (isEmptyValue (v.FieldByName sf.Name) &&
          sf.ShouldOmitEmpty ["", tag]) = true
      · simp only [updateStep, hskip, if_true, exceptPure, exceptBind_ok, List.filter_cons,
          Bool.not_eq_true', Bool.not_true, if_false, cond_false]
        simp only [hskip, Bool.not_true, Bool.false_eq_true, if_false]
        exact ih ub asgs htail
      · have hval : (if isEmptyValue (v.FieldByName sf.Name) then v.FieldByName sf.Name
            else dereferencedValue (v.FieldByName sf.Name)).IsValid = true := by
          by_cases hemp : isEmptyValue (v.FieldByName sf.Name) = true
          · simpa [hemp] using hhead.1
          · simp only [Bool.not_eq_true] at hemp
            simpa [hemp] using hhead.2 hemp
        have hcond : (isEmptyValue (v.FieldByName sf.Name) &&
            sf.ShouldOmitEmpty ["", tag]) = false := by
          simpa using hskip
        simp only [updateStep, hcond, Bool.false_eq_true, if_false,
          Interface_of_isValid _ hval, exceptPure, exceptBind_ok, UpdateBuilder.Assign]
        rw [ih _ _ htail]
        simp only [List.filter_cons, hskip, Bool.not_false, if_true]
        simp [List.append_assoc]

/-! ## Concrete examples used by witnesses and counterexamples

They model the end-to-end example of the spec: a declared type
`T { ID int "db:id"; Name string "db:name,fieldopt:omitempty" }`. -/

/-- The field `ID int` mapped to column `id`, no options. -/
def idField : structField :=
  { Name := "ID", columnName := "id", Alias := "id", quoteRequested := false, omitEmpty := none }

/-- The field `Name string` mapped to column `name`, with an unscoped
omit-empty option. -/
def nameField : structField :=
  { Name := "Name", columnName := "name", Alias := "name", quoteRequested := false,
    omitEmpty := some [] }

/-- The view of the example type: both fields, for read and write, for
any tag (the type declares no tag groups). -/
def exView : taggedFields :=
  { ForRead := [idField, nameField], ForWrite := [idField, nameField] }

/-- The example mapper, bound to the type `T`. -/
def sEx : Struct :=
  { Flavor := DefaultFlavor
    structType := some (.structT "T" ["ID", "Name"])
    structFieldsParser := { Tag := fun _ => some exView }
    structTag := "" }

/-- The record `T{ID: 1, Name: ""}` (empty name). -/
def r1 : GoValue :=
  .structV "T" (.cons "ID" (.intV 1) (.cons "Name" (.stringV "") .nil))

/-- The record `T{ID: 2, Name: "x"}` (non-empty name). -/
def r2 : GoValue :=
  .structV "T" (.cons "ID" (.intV 2) (.cons "Name" (.stringV "x") .nil))

/-- A record of an unrelated struct type `U`. -/
def uVal : GoValue := .structV "U" .nil

/-! ## The claims -/

/-- C7: for every select (`selectSkeleton` / `SelectFromForTag`), if the
view for the requested tag is absent, the produced SELECT scaffold selects
all columns (`*`) rather than failing; otherwise it lists exactly
`table.<columnName>` for every field of the read view, in view order. -/
theorem C7_select_skeleton (s : Struct) (table tag : String) :
    (s.structFieldsParser.Tag tag = none →
      s.SelectFromForTag table tag = { table := table, selects := ["*"] }) ∧
    (∀ tagged, s.structFieldsParser.Tag tag = some tagged →
      s.SelectFromForTag table tag =
        { table := table,
          selects := tagged.ForRead.map fun sf => table ++ "." ++ sf.NameForSelect s.Flavor }) := by
  constructor
  · intro ht
    simp [Struct.SelectFromForTag, ht, Flavor.NewSelectBuilder, SelectBuilder.From,
      SelectBuilder.Select]
  · intro tagged ht
    simp [Struct.SelectFromForTag, ht, Flavor.NewSelectBuilder, SelectBuilder.From,
      SelectBuilder.Select]

/-- Witness for C7: the dummy mapper has no view for any tag, so its
select falls back to `*`; the example mapper lists `t.id, t.name`. -/
theorem C7_select_skeleton_witness :
    emptyStruct.structFieldsParser.Tag "tag" = none ∧
    emptyStruct.SelectFromForTag "t" "tag" = { table := "t", selects := ["*"] } ∧
    sEx.structFieldsParser.Tag "" = some exView ∧
    sEx.SelectFromForTag "t" "" = { table := "t", selects := ["t.id", "t.name"] } :=
  ⟨rfl, (C7_select_skeleton emptyStruct "t" "tag").1 rfl, rfl,
    (C7_select_skeleton sEx "t" "").2 exView rfl⟩

/-- C8: for every tag, `ColumnsForTag` returns the write view's alias
names in view (declaration) order, and the empty sequence when the view is
absent; `Columns` uses the default tag; for a declared type with no tag
annotations, the columns for the empty tag are exactly the default-mapped
names of all exported fields in declaration order. -/
theorem C8_columns_for_tag (s : Struct) (tag : String) :
    (s.structFieldsParser.Tag tag = none → s.ColumnsForTag tag = []) ∧
    (∀ tagged, s.structFieldsParser.Tag tag = some tagged →
      s.ColumnsForTag tag = tagged.ForWrite.map fun sf => sf.Alias) ∧
    s.Columns = s.ColumnsForTag s.structTag ∧
    (∀ name fields, (NewStruct (.structT name fields)).ColumnsForTag "" =
      fields.map defaultFieldMapper) := by
  refine ⟨fun ht => by simp [Struct.ColumnsForTag, ht],
    fun tagged ht => by simp [Struct.ColumnsForTag, ht], rfl, fun name fields => ?_⟩
  simp [NewStruct, dereferencedType, makeDefaultFieldsParser, makeStructFields,
    Struct.ColumnsForTag, List.map_map, Function.comp_def]

/-- Witness for C8: the dummy mapper yields no columns; the example
mapper yields the aliases `id, name`; a three-field annotation-free type
yields its field names. -/
theorem C8_columns_for_tag_witness :
    emptyStruct.structFieldsParser.Tag "" = none ∧
    emptyStruct.ColumnsForTag "" = [] ∧
    sEx.structFieldsParser.Tag "" = some exView ∧
    sEx.ColumnsForTag "" = ["id", "name"] ∧
    (NewStruct (.structT "P" ["A", "B", "C"])).ColumnsForTag "" = ["A", "B", "C"] :=
  ⟨rfl, (C8_columns_for_tag emptyStruct "").1 rfl, rfl,
    (C8_columns_for_tag sEx "").2.1 exView rfl,
    (C8_columns_for_tag (NewStruct (.structT "P" ["A", "B", "C"])) "").2.2.2 "P" ["A", "B", "C"]⟩

/-- C9: every configuration method (`For`, `WithFieldMapper`, `WithTag`)
returns a new mapper value carrying the new setting and leaves every other
field as in the original; the model is pure, so the original value is
unchanged by construction, and the theorem characterizes each returned
copy.  (`WithFieldMapper` on the dummy mapper returns the dummy.) -/
theorem C9_config_value_semantics (s : Struct) (flavor : Flavor) (mapper : FieldMapperFunc)
    (tag : String) :
    s.For flavor = { s with Flavor := flavor } ∧
    s.WithTag tag = { s with structTag := tag } ∧
    (s.structType = none → s.WithFieldMapper mapper = emptyStruct) ∧
    (∀ t, s.structType = some t →
      s.WithFieldMapper mapper =
        { s with structFieldsParser := makeCustomFieldsParser t mapper }) := by
  refine ⟨rfl, rfl, fun h => ?_, fun t h => ?_⟩
  · simp [Struct.WithFieldMapper, h]
  · simp [Struct.WithFieldMapper, h]

/-- Witness for C9 at concrete mappers. -/
theorem C9_config_value_semantics_witness :
    sEx.For { quoteL := "q", quoteR := "p" } =
      { sEx with Flavor := { quoteL := "q", quoteR := "p" } } ∧
    sEx.WithTag "new" = { sEx with structTag := "new" } ∧
    emptyStruct.structType = none ∧
    emptyStruct.WithFieldMapper defaultFieldMapper = emptyStruct ∧
    sEx.structType = some (.structT "T" ["ID", "Name"]) ∧
    sEx.WithFieldMapper defaultFieldMapper =
      { sEx with structFieldsParser :=
          makeCustomFieldsParser (.structT "T" ["ID", "Name"]) defaultFieldMapper } :=
  ⟨(C9_config_value_semantics sEx { quoteL := "q", quoteR := "p" } defaultFieldMapper "new").1,
    (C9_config_value_semantics sEx { quoteL := "q", quoteR := "p" } defaultFieldMapper "new").2.1,
    rfl,
    (C9_config_value_semantics emptyStruct DefaultFlavor defaultFieldMapper "").2.2.1 rfl,
    rfl,
    (C9_config_value_semantics sEx DefaultFlavor defaultFieldMapper "").2.2.2
      (.structT "T" ["ID", "Name"]) rfl⟩

/-- C10: the three insert verb variants produce scaffolds with identical
column lists and identical value rows, differing only in the insert verb
(and propagating the same failures); each plain variant equals its ForTag
variant applied to the mapper's default tag. -/
theorem C10_insert_verb_variants (s : Struct) (table tag : String)
    (value : List (Option GoValue)) :
    s.InsertIgnoreIntoForTag table tag value =
      (s.InsertIntoForTag table tag value).map
        (fun ib => { ib with verb := "INSERT IGNORE INTO" }) ∧
    s.ReplaceIntoForTag table tag value =
      (s.InsertIntoForTag table tag value).map
        (fun ib => { ib with verb := "REPLACE INTO" }) ∧
    s.InsertInto table value = s.InsertIntoForTag table s.structTag value ∧
    s.InsertIgnoreInto table value = s.InsertIgnoreIntoForTag table s.structTag value ∧
    s.ReplaceInto table value = s.ReplaceIntoForTag table s.structTag value := by
  refine ⟨?_, ?_, rfl, rfl, rfl⟩
  · have h := buildColsAndValues_verb s ((s.Flavor.NewInsertBuilder).InsertInto table)
      "INSERT IGNORE INTO" tag value
    simpa [Struct.InsertIgnoreIntoForTag, Struct.InsertIntoForTag, InsertBuilder.InsertInto,
      InsertBuilder.InsertIgnoreInto, Flavor.NewInsertBuilder] using h
  · have h := buildColsAndValues_verb s ((s.Flavor.NewInsertBuilder).InsertInto table)
      "REPLACE INTO" tag value
    simpa [Struct.ReplaceIntoForTag, Struct.InsertIntoForTag, InsertBuilder.InsertInto,
      InsertBuilder.ReplaceInto, Flavor.NewInsertBuilder] using h

/-- C1: for every batch insert over the surviving records (at least one
survivor), a column is dropped from the produced column list if and only
if the field's omit-empty option applies to the requested tag AND the
field's value is empty in every surviving record; equivalently, the
produced column list is exactly the quoted names of the write-view fields
for which this conjunction fails, in view order — a decision made
independently per column. -/
theorem C1_batch_insert_column_omission (s : Struct) (ib ib' : InsertBuilder) (tag : String)
    (value : List (Option GoValue)) (tagged : taggedFields) (vs : List GoValue)
    (ht : s.structFieldsParser.Tag tag = some tagged)
    (hvs : filterSurvivors s.structType value = .ok vs)
    (hne : vs ≠ [])
    (hok : s.buildColsAndValuesForTag ib tag value = .ok ib') :
    ib'.cols = ib.cols ++
      ((tagged.ForWrite.filter fun sf =>
        !(sf.ShouldOmitEmpty ["", tag] &&
          vs.all fun v => isEmptyValue (v.FieldByName sf.Name))).map
        fun sf => sf.Quote s.Flavor) := by
  have h := buildColsAndValues_ok s ib tag value tagged vs ht hvs hne
  rw [hok] at h
  simp only [Except.ok.injEq] at h
  rw [h]

/-- Witness for C1: with the single surviving record `T{1, ""}` the
omit-empty `name` column is dropped (empty in every survivor) while `id`
is kept. -/
theorem C1_batch_insert_column_omission_witness :
    sEx.structFieldsParser.Tag "" = some exView ∧
    filterSurvivors sEx.structType [some r1] = .ok [r1] ∧
    ([r1] : List GoValue) ≠ [] ∧
    sEx.buildColsAndValuesForTag { verb := "INSERT INTO", table := "t", cols := [], values := [] }
        "" [some r1] =
      .ok { verb := "INSERT INTO", table := "t", cols := ["id"], values := [[some (.intV 1)]] } ∧
    (["id"] : List String) = [] ++
      ((exView.ForWrite.filter fun sf =>
        !(sf.ShouldOmitEmpty ["", ""] &&
          [r1].all fun v => isEmptyValue (v.FieldByName sf.Name))).map
        fun sf => sf.Quote sEx.Flavor) :=
  ⟨rfl, rfl, by simp, rfl,
    C1_batch_insert_column_omission sEx
      { verb := "INSERT INTO", table := "t", cols := [], values := [] }
      { verb := "INSERT INTO", table := "t", cols := ["id"], values := [[some (.intV 1)]] }
      "" [some r1] exView [r1] rfl rfl (by simp) rfl⟩

/-- C2 (counterexample): on the spec's own end-to-end example, the
retained `name` column does NOT receive a null placeholder in the row
whose value is empty: the code emits the (valid) empty value itself,
`some ""`, not `nil`. -/
theorem C2_null_placeholder_counterexample :
    sEx.InsertIntoForTag "t" "" [some r1, some r2] =
      .ok { verb := "INSERT INTO", table := "t", cols := ["id", "name"],
            values := [[some (.intV 1), some (.stringV "")],
                       [some (.intV 2), some (.stringV "x")]] } ∧
    [[some (GoValue.intV 1), some (GoValue.stringV "")],
     [some (GoValue.intV 2), some (GoValue.stringV "x")]] ≠
      [[some (GoValue.intV 1), none],
       [some (GoValue.intV 2), some (GoValue.stringV "x")]] :=
  ⟨rfl, by simp⟩

/-- C2 (amended): when a column is retained, every surviving record
contributes the dereferenced value of its field when that value is valid,
and the null placeholder `nil` exactly when the dereferenced field value
is invalid (a nil pointer or nil interface field); an empty-but-valid
value is emitted as the value itself, not as null. -/
theorem C2_retained_column_cells (s : Struct) (ib ib' : InsertBuilder) (tag : String)
    (value : List (Option GoValue)) (tagged : taggedFields) (vs : List GoValue)
    (ht : s.structFieldsParser.Tag tag = some tagged)
    (hvs : filterSurvivors s.structType value = .ok vs)
    (hne : vs ≠ [])
    (hok : s.buildColsAndValuesForTag ib tag value = .ok ib') :
    ib'.values = ib.values ++ vs.map fun v =>
      ((tagged.ForWrite.filter fun sf =>
        !(sf.ShouldOmitEmpty ["", tag] &&
          vs.all fun w => isEmptyValue (w.FieldByName sf.Name))).map
        fun sf =>
          if (dereferencedValue (v.FieldByName sf.Name)).IsValid
          then some (dereferencedValue (v.FieldByName sf.Name))
          else none) := by
  have h := buildColsAndValues_ok s ib tag value tagged vs ht hvs hne
  rw [hok] at h
  simp only [Except.ok.injEq] at h
  rw [h]
  simp [insertCell]

/-- Witness for C2 (amended): with survivors `T{1, ""}` and `T{2, "x"}`
the `name` column is retained and the first row's cell is the empty
string value itself. -/
theorem C2_retained_column_cells_witness :
    sEx.structFieldsParser.Tag "" = some exView ∧
    filterSurvivors sEx.structType [some r1, some r2] = .ok [r1, r2] ∧
    ([r1, r2] : List GoValue) ≠ [] ∧
    sEx.buildColsAndValuesForTag { verb := "INSERT INTO", table := "t", cols := [], values := [] }
        "" [some r1, some r2] =
      .ok { verb := "INSERT INTO", table := "t", cols := ["id", "name"],
            values := [[some (.intV 1), some (.stringV "")],
                       [some (.intV 2), some (.stringV "x")]] } ∧
    ([[some (GoValue.intV 1), some (GoValue.stringV "")],
      [some (GoValue.intV 2), some (GoValue.stringV "x")]] :
        List (List (Option GoValue))) = [] ++ [r1, r2].map fun v =>
      ((exView.ForWrite.filter fun sf =>
        !(sf.ShouldOmitEmpty ["", ""] &&
          [r1, r2].all fun w => isEmptyValue (w.FieldByName sf.Name))).map
        fun sf =>
          if (dereferencedValue (v.FieldByName sf.Name)).IsValid
          then some (dereferencedValue (v.FieldByName sf.Name))
          else none) :=
  ⟨rfl, rfl, by simp, rfl,
    C2_retained_column_cells sEx
      { verb := "INSERT INTO", table := "t", cols := [], values := [] }
      { verb := "INSERT INTO", table := "t", cols := ["id", "name"],
        values := [[some (.intV 1), some (.stringV "")],
                   [some (.intV 2), some (.stringV "x")]] }
      "" [some r1, some r2] exView [r1, r2] rfl rfl (by simp) rfl⟩

/-- C3: for every update (`UpdateForTag`) over a record of the bound type
(whose write-view field names are all present and dereferenceable), a
field of the write view is excluded from the produced assignments if and
only if its current value is the type's zero/empty value AND its
omit-empty option applies to the requested tag (an unscoped omit-empty
applies to every tag); every other field of the write view is included as
an assignment of its value — dereferenced when non-empty — in view
order. -/
theorem C3_update_omit_empty (s : Struct) (table tag : String) (value : Option GoValue)
    (tagged : taggedFields) (v : GoValue) (vt : GoType)
    (ht : s.structFieldsParser.Tag tag = some tagged)
    (hv : dereferencedValue (reflectValueOf value) = v)
    (hty : goTypeE v = .ok vt)
    (hmatch : some vt = s.structType)
    (hfields : ∀ sf ∈ tagged.ForWrite, (v.FieldByName sf.Name).IsValid = true ∧
      (isEmptyValue (v.FieldByName sf.Name) = false →
        (dereferencedValue (v.FieldByName sf.Name)).IsValid = true)) :
    s.UpdateForTag table tag value = .ok
      { table := table
        assignments := (tagged.ForWrite.filter fun sf =>
            !(isEmptyValue (v.FieldByName sf.Name) && sf.ShouldOmitEmpty ["", tag])).map
          fun sf => (sf.Quote s.Flavor,
            some (if isEmptyValue (v.FieldByName sf.Name) then v.FieldByName sf.Name
                  else dereferencedValue (v.FieldByName sf.Name)))
        setList := (tagged.ForWrite.filter fun sf =>
            !(isEmptyValue (v.FieldByName sf.Name) && sf.ShouldOmitEmpty ["", tag])).map
          fun sf => sf.Quote s.Flavor ++ " = ?" } := by
  simp only [Struct.UpdateForTag, ht, hv, hty, exceptBind_ok]
  rw [if_neg (not_not_intro hmatch)]
  rw [updateFold_ok s tag v tagged.ForWrite _ _ hfields]
  simp [Flavor.NewUpdateBuilder, UpdateBuilder.Update, UpdateBuilder.Set, exceptBind_ok,
    exceptPure]

/-- Witness for C3: updating from `T{1, ""}` skips the empty omit-empty
`name` field and assigns `id = 1`. -/
theorem C3_update_omit_empty_witness :
    sEx.structFieldsParser.Tag "" = some exView ∧
    dereferencedValue (reflectValueOf (some r1)) = r1 ∧
    goTypeE r1 = .ok (.structT "T" ["ID", "Name"]) ∧
    some (GoType.structT "T" ["ID", "Name"]) = sEx.structType ∧
    sEx.UpdateForTag "t" "" (some r1) = .ok
      { table := "t", assignments := [("id", some (.intV 1))], setList := ["id = ?"] } :=
  ⟨rfl, rfl, rfl, rfl,
    C3_update_omit_empty sEx "t" "" (some r1) exView r1 (.structT "T" ["ID", "Name"])
      rfl rfl rfl rfl (by decide)⟩

/-- C4 (counterexample): with an empty record list the produced scaffold
is NOT column-only: the write view's column list (`id, name`) is not set
on the builder — the builder's column list stays empty. -/
theorem C4_column_only_counterexample :
    sEx.InsertIntoForTag "t" "" [] =
      .ok { verb := "INSERT INTO", table := "t", cols := [], values := [] } ∧
    (exView.ForWrite.map fun sf => sf.Quote sEx.Flavor) = ["id", "name"] ∧
    ([] : List String) ≠ ["id", "name"] :=
  ⟨rfl, rfl, by simp⟩

/-- C4 (amended): for every insert call in which zero records survive the
bound-type filter (including an empty record list), the produced insert
scaffold is bare: neither the column list nor any value row is set on the
builder. -/
theorem C4_zero_survivors_bare_scaffold (s : Struct) (table tag : String)
    (value : List (Option GoValue))
    (hvs : filterSurvivors s.structType value = .ok []) :
    s.InsertIntoForTag table tag value =
      .ok { verb := "INSERT INTO", table := table, cols := [], values := [] } := by
  unfold Struct.InsertIntoForTag
  have h := buildColsAndValues_no_survivor s ((s.Flavor.NewInsertBuilder).InsertInto table)
    tag value hvs
  simpa [Flavor.NewInsertBuilder, InsertBuilder.InsertInto] using h

/-- Witness for C4 (amended) at the empty record list. -/
theorem C4_zero_survivors_bare_scaffold_witness :
    filterSurvivors sEx.structType [] = .ok [] ∧
    sEx.InsertIntoForTag "t" "" [] =
      .ok { verb := "INSERT INTO", table := "t", cols := [], values := [] } :=
  ⟨rfl, C4_zero_survivors_bare_scaffold sEx "t" "" [] rfl⟩

/-- C5: evaluating the batch insert at a `nil` record: the record filter
calls `reflect.Value.Type` on the zero `Value`, which panics — the model
propagates the failure — although the claim (and the function's own
documentation, "if the type of any item in value is not expected, it will
be ignored; InsertInto never returns any error") requires the record to be
ignored. -/
theorem C5_nil_record_insert_panics :
    sEx.InsertIntoForTag "t" "" [none] =
      .error "reflect: call of reflect.Value.Type on zero Value" := rfl

/-- C6: for every per-record single-record operation (`ValuesForTag`,
`AddrForTag`, `AddrWithCols`), if the supplied record's dereferenced
runtime type differs from the bound type the call returns nil/empty; and
in a batch insert, a record whose dereferenced runtime type differs from
the bound type is silently dropped from the build, wherever it occurs. -/
theorem C6_type_mismatch_dropped (s : Struct) (tag : String) (st : Option GoValue)
    (t0 vt : GoType)
    (hty : goTypeE (dereferencedValue (reflectValueOf st)) = .ok vt)
    (hbound : s.structType = some t0)
    (hne : vt ≠ t0) :
    s.ValuesForTag tag st = .ok [] ∧
    s.AddrForTag tag st = .ok [] ∧
    (∀ cols, s.AddrWithCols cols st = .ok []) ∧
    ∀ (ib : InsertBuilder) (value₁ value₂ : List (Option GoValue)),
      s.buildColsAndValuesForTag ib tag (value₁ ++ st :: value₂) =
        s.buildColsAndValuesForTag ib tag (value₁ ++ value₂) := by
  have hneq : some vt ≠ s.structType := by
    rw [hbound]
    intro h
    exact hne (Option.some.inj h)
  refine ⟨?_, ?_, ?_, ?_⟩
  · cases htag : s.structFieldsParser.Tag tag with
    | none =>
        simp only [Struct.ValuesForTag, htag]
        rfl
    | some tagged =>
        simp only [Struct.ValuesForTag, htag, hty, exceptBind_ok, if_pos hneq]
        rfl
  · cases htag : s.structFieldsParser.Tag tag with
    | none => simp only [Struct.AddrForTag, htag]
    | some tagged =>
        simp only [Struct.AddrForTag, htag, Struct.addrWithFields, hty, exceptBind_ok,
          if_pos hneq]
        rfl
  · intro cols
    cases htag : s.structFieldsParser.Tag s.structTag with
    | none => simp only [Struct.AddrWithCols, htag]
    | some tagged =>
        cases hcols : tagged.Cols cols with
        | none => simp only [Struct.AddrWithCols, htag, hcols]
        | some fields =>
            simp only [Struct.AddrWithCols, htag, hcols, Struct.addrWithFields, hty,
              exceptBind_ok, if_pos hneq]
            rfl
  · intro ib value₁ value₂
    cases htag : s.structFieldsParser.Tag tag with
    | none =>
        rw [buildColsAndValues_tag_none s ib tag _ htag,
          buildColsAndValues_tag_none s ib tag _ htag]
    | some tagged =>
        have hdrop := filterSurvivors_drop t0 st vt hty hne value₁ value₂
        simp only [Struct.buildColsAndValuesForTag, htag, hbound]
        rw [hdrop]

/-- Witness for C6: a record of the unrelated type `U` yields empty
results from the single-record operations of the example mapper, and is
dropped from a batch insert. -/
theorem C6_type_mismatch_dropped_witness :
    goTypeE (dereferencedValue (reflectValueOf (some uVal))) = .ok (.structT "U" []) ∧
    sEx.structType = some (.structT "T" ["ID", "Name"]) ∧
    GoType.structT "U" [] ≠ .structT "T" ["ID", "Name"] ∧
    sEx.ValuesForTag "" (some uVal) = .ok [] ∧
    sEx.AddrForTag "" (some uVal) = .ok [] ∧
    sEx.AddrWithCols ["id"] (some uVal) = .ok [] ∧
    sEx.buildColsAndValuesForTag { verb := "INSERT INTO", table := "t", cols := [], values := [] }
        "" [some r1, some uVal] =
      sEx.buildColsAndValuesForTag { verb := "INSERT INTO", table := "t", cols := [], values := [] }
        "" [some r1] :=
  ⟨rfl, rfl, by decide,
    (C6_type_mismatch_dropped sEx "" (some uVal) (.structT "T" ["ID", "Name"]) (.structT "U" [])
      rfl rfl (by decide)).1,
    (C6_type_mismatch_dropped sEx "" (some uVal) (.structT "T" ["ID", "Name"]) (.structT "U" [])
      rfl rfl (by decide)).2.1,
    (C6_type_mismatch_dropped sEx "" (some uVal) (.structT "T" ["ID", "Name"]) (.structT "U" [])
      rfl rfl (by decide)).2.2.1 ["id"],
    (C6_type_mismatch_dropped sEx "" (some uVal) (.structT "T" ["ID", "Name"]) (.structT "U" [])
      rfl rfl (by decide)).2.2.2
      { verb := "INSERT INTO", table := "t", cols := [], values := [] } [some r1] []⟩
